import Mathlib

/-!
Verification of the compound-interest calculation engine of the
zinses-rechner backend, a shallow embedding of
src/backend/app/services/calculator_service.py (class CalculatorService)
and of the field constraints of src/backend/app/models/calculator.py
(CalculatorRequest).

Modelling conventions:
* Python Decimal values are modelled as exact rationals (ℚ); Decimal
  addition, subtraction and multiplication on the bounded inputs involved
  here are exact, and the divisions are modelled exactly as well.
* ROUND_HALF_UP quantization to two decimal places is the function
  roundHalfUp below (round half away from zero, as in Python decimal).
* datetime.now().isoformat() is modelled as an extra String argument to
  the calculation function (the clock reading at call time).
* Decimal exponentiation with a fractional exponent (the expression
  (final / contributions) ** (1 / years) used for the annualized return)
  is modelled by the deterministic approximation decRoot below.
-/

namespace Zinses

/-- Request model, from CalculatorRequest in src/backend/app/models/calculator.py.
Numeric amounts are rationals, years is an integer as in Python. -/
structure CalculatorRequest where
  principal : ℚ
  monthly_payment : ℚ
  annual_rate : ℚ
  years : ℤ
  compound_frequency : String
deriving DecidableEq, Repr

/-- One entry of the yearly breakdown, from YearlyBreakdown in
src/backend/app/models/calculator.py (fields rounded to 2 decimals in the
response). -/
structure YearlyBreakdown where
  year : ℕ
  start_amount : ℚ
  contributions : ℚ
  interest : ℚ
  end_amount : ℚ
  growth_rate : ℚ
deriving DecidableEq, Repr

/-- Response model, from CalculatorResponse in src/backend/app/models/calculator.py. -/
structure CalculatorResponse where
  final_amount : ℚ
  total_contributions : ℚ
  total_interest : ℚ
  annual_return : ℚ
  yearly_breakdown : List YearlyBreakdown
  calculation_time : String
deriving DecidableEq, Repr

/-- Quantization to two decimal places with ROUND_HALF_UP (half away from
zero), as performed by Decimal.quantize(Decimal(&quot;0.01&quot;), rounding=ROUND_HALF_UP). -/
def roundHalfUp (q : ℚ) : ℚ :=
  (if 0 ≤ q then ((⌊q * 100 + 1/2⌋ : ℤ) : ℚ) else -((⌊-(q * 100) + 1/2⌋ : ℤ) : ℚ)) / 100

/-- Bisection kernel for the integer n-th root: largest r in [lo, hi) with
r ^ n ≤ m, given lo ^ n ≤ m &lt; hi ^ n. Fuel bounds the recursion. -/
def nthRootAux (n m : ℕ) : ℕ → ℕ → ℕ → ℕ
  | 0, lo, _ => lo
  | fuel + 1, lo, hi =>
    if hi ≤ lo + 1 then lo
    else
      let mid := (lo + hi) / 2
      if mid ^ n ≤ m then nthRootAux n m fuel mid hi
      else nthRootAux n m fuel lo mid

/-- Integer n-th root (floor) by bisection. -/
def nthRootNat (n m : ℕ) : ℕ :=
  nthRootAux n m (m + 2) 0 (m + 1)

/-- Modelled from the source's use of Decimal exponentiation: a deterministic
approximation of x ^ (1 / n), standing in for the Decimal power operator in
(final_amount / total_contributions) ** (Decimal(1) / Decimal(years)).
Only its determinism matters for the claims below; no claim depends on its
value. -/
def decRoot (x : ℚ) (n : ℕ) : ℚ :=
  if n = 0 then 1
  else if x ≤ 0 then 0
  else
    let scale : ℕ := 10 ^ 6
    ((nthRootNat n (⌊x * ((scale : ℚ)) ^ n⌋.toNat) : ℚ)) / (scale : ℚ)

/-- Dispatch of periods_per_year on the compound_frequency string, from the
if/elif/else chain of calculate_compound_interest (any unrecognized string
falls into the else branch and is treated as yearly). -/
def periods_per_year (freq : String) : ℕ :=
  if freq = "monthly" then 12
  else if freq = "quarterly" then 4
  else 1

/-- Dispatch of rate_per_period on the compound_frequency string, from the
same if/elif/else chain (annual is the fractional annual rate). -/
def rate_per_period (freq : String) (annual : ℚ) : ℚ :=
  if freq = "monthly" then annual / 12
  else if freq = "quarterly" then annual / 4
  else annual

/-- State threaded through the inner period loop of one year:
current_amount, year_contributions, year_interest, total_contributions. -/
structure PState where
  cur : ℚ
  yc : ℚ
  yi : ℚ
  tc : ℚ
deriving DecidableEq, Repr

/-- Body of the inner period loop: if the frequency is monthly and the
monthly payment is positive, the payment is added to current_amount (and to
the contribution accumulators) first; then the period interest
current_amount * rate_per_period is accrued. -/
def periodStep (freq : String) (pm rp : ℚ) (s : PState) : PState :=
  let s1 := if freq = "monthly" ∧ 0 < pm then
      { s with cur := s.cur + pm, yc := s.yc + pm, tc := s.tc + pm }
    else s
  let pint := s1.cur * rp
  { s1 with cur := s1.cur + pint, yi := s1.yi + pint }

/-- Unrounded per-year record accumulated by the outer loop. -/
structure YearRec where
  year : ℕ
  start_amount : ℚ
  contributions : ℚ
  interest : ℚ
  end_amount : ℚ
  growth_rate : ℚ
deriving DecidableEq, Repr

/-- State threaded through the outer year loop: current_amount,
total_contributions, and the accumulated yearly breakdown (unrounded). -/
structure SimState where
  current : ℚ
  total_contributions : ℚ
  breakdown : List YearRec
deriving DecidableEq, Repr

/-- Body of the outer year loop: run periods_per_year inner periods; for
quarterly or yearly frequency with a positive monthly payment add the full
annual contribution monthly_payment * 12 at the end of the year; compute
the growth rate from the year's start amount. -/
def yearStep (freq : String) (pm rp : ℚ) (ppy : ℕ) (year : ℕ) (s : SimState) : SimState :=
  let start := s.current
  let p := (periodStep freq pm rp)^[ppy] ⟨start, 0, 0, s.total_contributions⟩
  let p2 := if (freq = "quarterly" ∨ freq = "yearly") ∧ 0 < pm then
      { p with cur := p.cur + pm * 12, yc := p.yc + pm * 12, tc := p.tc + pm * 12 }
    else p
  let growth := if 0 < start then (p2.cur - start) / start * 100 else 0
  { current := p2.cur
    total_contributions := p2.tc
    breakdown := s.breakdown ++ [⟨year, start, p2.yc, p2.yi, p2.cur, growth⟩] }

/-- Outer loop over the years year, year+1, ..., year+n-1 (the Python loop
runs year = 1 .. years). -/
def simFrom (freq : String) (pm rp : ℚ) (ppy : ℕ) : ℕ → ℕ → SimState → SimState
  | _, 0, s => s
  | year, n + 1, s => simFrom freq pm rp ppy (year + 1) n (yearStep freq pm rp ppy year s)

/-- Whole simulation of calculate_compound_interest before final rounding:
current_amount and total_contributions start at the principal, and the year
loop runs request.years times. -/
def simulate (r : CalculatorRequest) : SimState :=
  let annual := r.annual_rate / 100
  simFrom r.compound_frequency r.monthly_payment
    (rate_per_period r.compound_frequency annual)
    (periods_per_year r.compound_frequency)
    1 r.years.toNat
    ⟨r.principal, r.principal, []⟩

/-- Rounding of one yearly record for the response (each field quantized to
two decimals, half up, as in the YearlyBreakdown construction). -/
def roundRec (y : YearRec) : YearlyBreakdown :=
  ⟨y.year, roundHalfUp y.start_amount, roundHalfUp y.contributions,
    roundHalfUp y.interest, roundHalfUp y.end_amount, roundHalfUp y.growth_rate⟩

/-- CalculatorService.calculate_compound_interest from
src/backend/app/services/calculator_service.py. The extra argument now is
the clock reading datetime.now().isoformat() observed during the call; it
is returned verbatim in the calculation's time field. -/
def calculate_compound_interest (r : CalculatorRequest) (now : String) : CalculatorResponse :=
  let s := simulate r
  let final_amount := s.current
  let total_contributions := s.total_contributions
  let total_interest := final_amount - total_contributions
  let annual_return :=
    if 0 < total_contributions ∧ 0 < r.years then
      (decRoot (final_amount / total_contributions) r.years.toNat - 1) * 100
    else 0
  { final_amount := roundHalfUp final_amount
    total_contributions := roundHalfUp total_contributions
    total_interest := roundHalfUp total_interest
    annual_return := roundHalfUp annual_return
    yearly_breakdown := s.breakdown.map roundRec
    calculation_time := now }

/-- CalculatorService.validate_request from
src/backend/app/services/calculator_service.py: the list of validation
error messages, appended in source order. -/
def validate_request (r : CalculatorRequest) : List String :=
  (if r.principal ≤ 0 then ["本金必须大于0"] else [])
  ++ (if 10000000 < r.principal then ["本金不能超过10,000,000€"] else [])
  ++ (if r.annual_rate ≤ 0 then ["利率必须大于0"] else [])
  ++ (if 20 < r.annual_rate then ["利率不能超过20%"] else [])
  ++ (if r.years ≤ 0 then ["年限必须大于0"] else [])
  ++ (if 50 < r.years then ["年限不能超过50年"] else [])
  ++ (if r.monthly_payment < 0 then ["月供不能为负数"] else [])
  ++ (if 50000 < r.monthly_payment then ["月供不能超过50,000€"] else [])

/-- Field constraints of the pydantic model CalculatorRequest in
src/backend/app/models/calculator.py: principal gt 0 le 10_000_000,
monthly_payment ge 0 le 50_000, annual_rate gt 0 le 20, years gt 0 le 50,
and the compound_frequency validator restricting to the three allowed
strings. -/
def modelValid (r : CalculatorRequest) : Bool :=
  (0 < r.principal) && (r.principal ≤ 10000000)
  && (0 ≤ r.monthly_payment) && (r.monthly_payment ≤ 50000)
  && (0 < r.annual_rate) && (r.annual_rate ≤ 20)
  && (0 < r.years) && (r.years ≤ 50)
  && (r.compound_frequency = "monthly" || r.compound_frequency = "quarterly"
      || r.compound_frequency = "yearly")

/-! Helper lemmas about roundHalfUp. -/

/-- Integer numerator of roundHalfUp (the rounded value times 100). -/
def rInt (q : ℚ) : ℤ :=
  if 0 ≤ q then ⌊q * 100 + 1/2⌋ else -⌊-(q * 100) + 1/2⌋

lemma roundHalfUp_eq (q : ℚ) : roundHalfUp q = (rInt q : ℚ) / 100 := by
  unfold roundHalfUp rInt
  split <;> push_cast <;> ring

lemma rInt_close (q : ℚ) : |(rInt q : ℚ) - q * 100| ≤ 1/2 := by
  unfold rInt
  split
  · have h1 := Int.floor_le (q * 100 + 1/2)
    have h2 := Int.sub_one_lt_floor (q * 100 + 1/2)
    rw [abs_le]
    constructor <;> push_cast <;> linarith
  · have h1 := Int.floor_le (-(q * 100) + 1/2)
    have h2 := Int.sub_one_lt_floor (-(q * 100) + 1/2)
    rw [abs_le]
    constructor <;> push_cast <;> linarith

lemma roundHalfUp_add_sub (x y : ℚ) :
    |roundHalfUp (x + y) - roundHalfUp x - roundHalfUp y| ≤ 1/100 := by
  have h1 := rInt_close (x + y)
  have h2 := rInt_close x
  have h3 := rInt_close y
  have hq : |((rInt (x + y) - rInt x - rInt y : ℤ) : ℚ)| ≤ 3/2 := by
    rw [abs_le] at h1 h2 h3 ⊢
    constructor <;> push_cast <;> push_cast at h1 h2 h3 <;> linarith
  have hz : |rInt (x + y) - rInt x - rInt y| ≤ 1 := by
    have h4 : ((|rInt (x + y) - rInt x - rInt y| : ℤ) : ℚ) ≤ 3/2 := by
      rw [Int.cast_abs]; exact hq
    by_contra hc
    push_neg at hc
    have hc2 : (2 : ℤ) ≤ |rInt (x + y) - rInt x - rInt y| := by omega
    have h5 : ((2 : ℤ) : ℚ) ≤ ((|rInt (x + y) - rInt x - rInt y| : ℤ) : ℚ) :=
      Int.cast_le.mpr hc2
    have h6 : ((2 : ℤ) : ℚ) = (2 : ℚ) := by norm_num
    linarith
  rw [roundHalfUp_eq, roundHalfUp_eq, roundHalfUp_eq]
  have : (rInt (x + y) : ℚ) / 100 - (rInt x : ℚ) / 100 - (rInt y : ℚ) / 100
      = ((rInt (x + y) - rInt x - rInt y : ℤ) : ℚ) / 100 := by push_cast; ring
  rw [this, abs_div]
  have h6 : |((rInt (x + y) - rInt x - rInt y : ℤ) : ℚ)| ≤ 1 := by
    rw [← Int.cast_abs]
    exact_mod_cast hz
  rw [show |(100 : ℚ)| = 100 by norm_num]
  linarith [(div_le_div_right (show (0:ℚ) < 100 by norm_num)).mpr h6]

lemma roundHalfUp_mono {x y : ℚ} (h : x ≤ y) : roundHalfUp x ≤ roundHalfUp y := by
  unfold roundHalfUp
  rcases le_or_lt 0 x with hx | hx
  · rw [if_pos hx, if_pos (hx.trans h)]
    have : (⌊x * 100 + 1/2⌋ : ℚ) ≤ (⌊y * 100 + 1/2⌋ : ℚ) := by
      exact_mod_cast Int.floor_le_floor (by linarith)
    linarith [(div_le_div_right (show (0:ℚ) < 100 by norm_num)).mpr this]
  · rcases le_or_lt 0 y with hy | hy
    · rw [if_neg (not_le.mpr hx), if_pos hy]
      have ha : (0 : ℚ) ≤ (⌊y * 100 + 1/2⌋ : ℚ) := by
        exact_mod_cast Int.le_floor.mpr (by push_cast; linarith)
      have hb : (0 : ℚ) ≤ (⌊-(x * 100) + 1/2⌋ : ℚ) := by
        exact_mod_cast Int.le_floor.mpr (by push_cast; linarith)
      have : -(⌊-(x * 100) + 1/2⌋ : ℚ) / 100 ≤ 0 := by
        rw [neg_div]
        exact neg_nonpos.mpr (by positivity)
      have h2 : (0 : ℚ) ≤ (⌊y * 100 + 1/2⌋ : ℚ) / 100 := by positivity
      linarith
    · rw [if_neg (not_le.mpr hx), if_neg (not_le.mpr hy)]
      have : (⌊-(y * 100) + 1/2⌋ : ℚ) ≤ (⌊-(x * 100) + 1/2⌋ : ℚ) := by
        exact_mod_cast Int.floor_le_floor (by linarith)
      have h3 : -(⌊-(x * 100) + 1/2⌋ : ℚ) ≤ -(⌊-(y * 100) + 1/2⌋ : ℚ) := by linarith
      linarith [(div_le_div_right (show (0:ℚ) < 100 by norm_num)).mpr h3]

lemma roundHalfUp_zero : roundHalfUp 0 = 0 := by
  unfold roundHalfUp
  norm_num

/-! Projections of the inner period loop. -/

/-- Action of one inner period on current_amount alone. -/
def curStep (freq : String) (pm rp : ℚ) (a : ℚ) : ℚ :=
  let a1 := if freq = "monthly" ∧ 0 < pm then a + pm else a
  a1 + a1 * rp

/-- Per-period increment of the contribution accumulators. -/
def contribInc (freq : String) (pm : ℚ) : ℚ :=
  if freq = "monthly" ∧ 0 < pm then pm else 0

lemma periodStep_cur (freq : String) (pm rp : ℚ) (s : PState) :
    (periodStep freq pm rp s).cur = curStep freq pm rp s.cur := by
  by_cases h : freq = "monthly" ∧ 0 < pm <;> simp [periodStep, curStep, h]

lemma periodStep_tc (freq : String) (pm rp : ℚ) (s : PState) :
    (periodStep freq pm rp s).tc = s.tc + contribInc freq pm := by
  by_cases h : freq = "monthly" ∧ 0 < pm <;> simp [periodStep, contribInc, h]

lemma periodStep_yc (freq : String) (pm rp : ℚ) (s : PState) :
    (periodStep freq pm rp s).yc = s.yc + contribInc freq pm := by
  by_cases h : freq = "monthly" ∧ 0 < pm <;> simp [periodStep, contribInc, h]

lemma periodStep_ledger (freq : String) (pm rp : ℚ) (s : PState) :
    (periodStep freq pm rp s).cur - (periodStep freq pm rp s).yc - (periodStep freq pm rp s).yi
      = s.cur - s.yc - s.yi := by
  by_cases h : freq = "monthly" ∧ 0 < pm <;> simp [periodStep, h] <;> ring

lemma iterate_cur (freq : String) (pm rp : ℚ) :
    ∀ (n : ℕ) (s : PState),
      ((periodStep freq pm rp)^[n] s).cur = (curStep freq pm rp)^[n] s.cur := by
  intro n
  induction n with
  | zero => intro s; simp
  | succ k ih =>
    intro s
    rw [Function.iterate_succ_apply', Function.iterate_succ_apply', periodStep_cur, ih]

lemma iterate_tc (freq : String) (pm rp : ℚ) :
    ∀ (n : ℕ) (s : PState),
      ((periodStep freq pm rp)^[n] s).tc = s.tc + n * contribInc freq pm := by
  intro n
  induction n with
  | zero => intro s; simp
  | succ k ih =>
    intro s
    rw [Function.iterate_succ_apply', periodStep_tc, ih]
    push_cast
    ring

lemma iterate_yc (freq : String) (pm rp : ℚ) :
    ∀ (n : ℕ) (s : PState),
      ((periodStep freq pm rp)^[n] s).yc = s.yc + n * contribInc freq pm := by
  intro n
  induction n with
  | zero => intro s; simp
  | succ k ih =>
    intro s
    rw [Function.iterate_succ_apply', periodStep_yc, ih]
    push_cast
    ring

lemma iterate_ledger (freq : String) (pm rp : ℚ) :
    ∀ (n : ℕ) (s : PState),
      ((periodStep freq pm rp)^[n] s).cur - ((periodStep freq pm rp)^[n] s).yc
        - ((periodStep freq pm rp)^[n] s).yi = s.cur - s.yc - s.yi := by
  intro n
  induction n with
  | zero => intro s; simp
  | succ k ih =>
    intro s
    rw [Function.iterate_succ_apply', periodStep_ledger, ih]

/-! Projections of the outer year loop. -/

/-- Year-end contribution increment (quarterly or yearly frequency only). -/
def yearEndInc (freq : String) (pm : ℚ) : ℚ :=
  if (freq = "quarterly" ∨ freq = "yearly") ∧ 0 < pm then pm * 12 else 0

/-- Action of one whole year on current_amount alone. -/
def yearCur (freq : String) (pm rp : ℚ) (ppy : ℕ) (a : ℚ) : ℚ :=
  (curStep freq pm rp)^[ppy] a + yearEndInc freq pm

/-- Total contribution added over one year. -/
def yearContrib (freq : String) (pm : ℚ) (ppy : ℕ) : ℚ :=
  ppy * contribInc freq pm + yearEndInc freq pm

lemma yearStep_current (freq : String) (pm rp : ℚ) (ppy : ℕ) (year : ℕ) (s : SimState) :
    (yearStep freq pm rp ppy year s).current = yearCur freq pm rp ppy s.current := by
  by_cases h : (freq = "quarterly" ∨ freq = "yearly") ∧ 0 < pm <;>
    simp [yearStep, yearCur, yearEndInc, h, iterate_cur]

lemma yearStep_tc (freq : String) (pm rp : ℚ) (ppy : ℕ) (year : ℕ) (s : SimState) :
    (yearStep freq pm rp ppy year s).total_contributions
      = s.total_contributions + yearContrib freq pm ppy := by
  by_cases h : (freq = "quarterly" ∨ freq = "yearly") ∧ 0 < pm <;>
    simp [yearStep, yearContrib, yearEndInc, h, iterate_tc] <;> ring

lemma simFrom_current (freq : String) (pm rp : ℚ) (ppy : ℕ) :
    ∀ (n year : ℕ) (s : SimState),
      (simFrom freq pm rp ppy year n s).current = (yearCur freq pm rp ppy)^[n] s.current := by
  intro n
  induction n with
  | zero => intro year s; simp [simFrom]
  | succ k ih =>
    intro year s
    rw [simFrom, ih, Function.iterate_succ_apply, yearStep_current]

lemma simFrom_tc (freq : String) (pm rp : ℚ) (ppy : ℕ) :
    ∀ (n year : ℕ) (s : SimState),
      (simFrom freq pm rp ppy year n s).total_contributions
        = s.total_contributions + n * yearContrib freq pm ppy := by
  intro n
  induction n with
  | zero => intro year s; simp [simFrom]
  | succ k ih =>
    intro year s
    rw [simFrom, ih, yearStep_tc]
    push_cast
    ring

/-! Field projections of the response. -/

lemma calc_final (r : CalculatorRequest) (t : String) :
    (calculate_compound_interest r t).final_amount = roundHalfUp (simulate r).current := rfl

lemma calc_tc (r : CalculatorRequest) (t : String) :
    (calculate_compound_interest r t).total_contributions
      = roundHalfUp (simulate r).total_contributions := rfl

lemma calc_ti (r : CalculatorRequest) (t : String) :
    (calculate_compound_interest r t).total_interest
      = roundHalfUp ((simulate r).current - (simulate r).total_contributions) := rfl

lemma calc_time (r : CalculatorRequest) (t : String) :
    (calculate_compound_interest r t).calculation_time = t := rfl

/-! Frequency-specific evaluations. -/

lemma yearContrib_std (freq : String)
    (hf : freq = "monthly" ∨ freq = "quarterly" ∨ freq = "yearly")
    (pm : ℚ) (hpm : 0 ≤ pm) :
    yearContrib freq pm (periods_per_year freq) = pm * 12 := by
  rcases eq_or_lt_of_le hpm with hz | hp
  · rcases hf with h | h | h <;> subst h <;>
      simp [yearContrib, contribInc, yearEndInc, periods_per_year, ← hz]
  · rcases hf with h | h | h <;> subst h <;>
      simp [yearContrib, contribInc, yearEndInc, periods_per_year, hp] <;> ring

/-- Contribution accounting at the unrounded level: total_contributions
after the whole simulation is principal + monthly_payment * 12 * years. -/
lemma simulate_tc (r : CalculatorRequest)
    (hf : r.compound_frequency = "monthly" ∨ r.compound_frequency = "quarterly"
      ∨ r.compound_frequency = "yearly")
    (hpm : 0 ≤ r.monthly_payment) :
    (simulate r).total_contributions
      = r.principal + r.monthly_payment * 12 * (r.years.toNat : ℚ) := by
  unfold simulate
  rw [simFrom_tc, yearContrib_std r.compound_frequency hf r.monthly_payment hpm]
  ring

lemma toNat_cast_eq (z : ℤ) (hz : 1 ≤ z) : ((z.toNat : ℕ) : ℚ) = (z : ℚ) := by
  have : ((z.toNat : ℤ) : ℚ) = (z : ℚ) := by
    rw [Int.toNat_of_nonneg (by linarith)]
  push_cast at this ⊢
  exact this

/-- C4: for every valid input (any of the three frequencies, monthly
payment ≥ 0), total_contributions equals
principal + monthly_payment * 12 * years exactly before rounding, and the
returned (rounded) field is the rounding of that exact value. -/
theorem C4_contribution_accounting (r : CalculatorRequest) (t : String)
    (hf : r.compound_frequency = "monthly" ∨ r.compound_frequency = "quarterly"
      ∨ r.compound_frequency = "yearly")
    (hpm : 0 ≤ r.monthly_payment) (hy : 1 ≤ r.years) :
    (simulate r).total_contributions
      = r.principal + r.monthly_payment * 12 * (r.years : ℚ)
    ∧ (calculate_compound_interest r t).total_contributions
      = roundHalfUp (r.principal + r.monthly_payment * 12 * (r.years : ℚ)) := by
  have h1 := simulate_tc r hf hpm
  rw [toNat_cast_eq r.years hy] at h1
  exact ⟨h1, by rw [calc_tc, h1]⟩

/-- Witness for C4 at the spec's scenario 3 input. -/
theorem C4_witness :
    (simulate ⟨5000, 200, 5, 3, "monthly"⟩).total_contributions
      = 5000 + 200 * 12 * (((3 : ℤ) : ℚ))
    ∧ (calculate_compound_interest ⟨5000, 200, 5, 3, "monthly"⟩ "t").total_contributions
      = roundHalfUp (5000 + 200 * 12 * (((3 : ℤ) : ℚ))) :=
  C4_contribution_accounting ⟨5000, 200, 5, 3, "monthly"⟩ "t" (Or.inl rfl)
    (by norm_num) (by norm_num)

/-- C5: the returned rounded values satisfy
final_amount = total_contributions + total_interest within 0.01. -/
theorem C5_conservation (r : CalculatorRequest) (t : String) :
    |(calculate_compound_interest r t).final_amount
      - ((calculate_compound_interest r t).total_contributions
        + (calculate_compound_interest r t).total_interest)| ≤ 1/100 := by
  have h := roundHalfUp_add_sub (simulate r).total_contributions
    ((simulate r).current - (simulate r).total_contributions)
  rw [show (simulate r).total_contributions
      + ((simulate r).current - (simulate r).total_contributions)
      = (simulate r).current from by ring] at h
  rw [calc_final, calc_tc, calc_ti]
  rw [show roundHalfUp (simulate r).current
      - (roundHalfUp (simulate r).total_contributions
        + roundHalfUp ((simulate r).current - (simulate r).total_contributions))
      = roundHalfUp (simulate r).current
        - roundHalfUp (simulate r).total_contributions
        - roundHalfUp ((simulate r).current - (simulate r).total_contributions) from by ring]
  exact h

/-! Zero-rate behaviour. -/

lemma rate_per_period_zero (freq : String) : rate_per_period freq 0 = 0 := by
  unfold rate_per_period
  split <;> norm_num

lemma curStep_zero (freq : String) (pm : ℚ) (a : ℚ) :
    curStep freq pm 0 a = a + contribInc freq pm := by
  by_cases h : freq = "monthly" ∧ 0 < pm <;> simp [curStep, contribInc, h]

lemma iterate_curStep_zero (freq : String) (pm : ℚ) :
    ∀ (n : ℕ) (a : ℚ), (curStep freq pm 0)^[n] a = a + n * contribInc freq pm := by
  intro n
  induction n with
  | zero => intro a; simp
  | succ k ih =>
    intro a
    rw [Function.iterate_succ_apply', ih, curStep_zero]
    push_cast
    ring

lemma yearCur_zero (freq : String) (pm : ℚ) (ppy : ℕ) (a : ℚ) :
    yearCur freq pm 0 ppy a = a + yearContrib freq pm ppy := by
  rw [yearCur, yearContrib, iterate_curStep_zero]
  ring

lemma iterate_yearCur_zero (freq : String) (pm : ℚ) (ppy : ℕ) :
    ∀ (n : ℕ) (a : ℚ),
      (yearCur freq pm 0 ppy)^[n] a = a + n * yearContrib freq pm ppy := by
  intro n
  induction n with
  | zero => intro a; simp
  | succ k ih =>
    intro a
    rw [Function.iterate_succ_apply', ih, yearCur_zero]
    push_cast
    ring

/-- C3: with a zero annual rate the final amount is exactly
principal + monthly_payment * 12 * years, it equals the contribution total,
and the total interest is exactly zero. -/
theorem C3_zero_rate (r : CalculatorRequest) (t : String)
    (hr : r.annual_rate = 0) (hy : 1 ≤ r.years) (hpm : 0 ≤ r.monthly_payment)
    (hf : r.compound_frequency = "monthly" ∨ r.compound_frequency = "quarterly"
      ∨ r.compound_frequency = "yearly") :
    (simulate r).current = r.principal + r.monthly_payment * 12 * (r.years : ℚ)
    ∧ (calculate_compound_interest r t).final_amount
      = roundHalfUp (r.principal + r.monthly_payment * 12 * (r.years : ℚ))
    ∧ (calculate_compound_interest r t).final_amount
      = (calculate_compound_interest r t).total_contributions
    ∧ (calculate_compound_interest r t).total_interest = 0 := by
  have hcur : (simulate r).current
      = r.principal + r.monthly_payment * 12 * (r.years : ℚ) := by
    unfold simulate
    rw [hr]
    dsimp only
    rw [show (0 : ℚ) / 100 = 0 from by norm_num, rate_per_period_zero,
      simFrom_current, iterate_yearCur_zero,
      yearContrib_std r.compound_frequency hf r.monthly_payment hpm,
      toNat_cast_eq r.years hy]
    ring
  have htc : (simulate r).total_contributions
      = r.principal + r.monthly_payment * 12 * (r.years : ℚ) := by
    rw [simulate_tc r hf hpm, toNat_cast_eq r.years hy]
  refine ⟨hcur, by rw [calc_final, hcur], ?_, ?_⟩
  · rw [calc_final, calc_tc, hcur, htc]
  · rw [calc_ti, hcur, htc, sub_self, roundHalfUp_zero]

/-- Witness for C3 at the spec's scenario 2 input. -/
theorem C3_witness :
    (calculate_compound_interest ⟨10000, 0, 0, 5, "monthly"⟩ "t").final_amount
      = (calculate_compound_interest ⟨10000, 0, 0, 5, "monthly"⟩ "t").total_contributions
    ∧ (calculate_compound_interest ⟨10000, 0, 0, 5, "monthly"⟩ "t").total_interest = 0 :=
  ⟨(C3_zero_rate ⟨10000, 0, 0, 5, "monthly"⟩ "t" rfl (by norm_num) le_rfl (Or.inl rfl)).2.2.1,
   (C3_zero_rate ⟨10000, 0, 0, 5, "monthly"⟩ "t" rfl (by norm_num) le_rfl (Or.inl rfl)).2.2.2⟩

/-- C1 counterexample: two calls with identical request arguments made at
different clock readings return responses that differ (in the
calculation_time field), so the full response is not identical across
calls. -/
theorem C1_counterexample :
    calculate_compound_interest ⟨10000, 500, 4, 10, "monthly"⟩ "2024-01-15T10:30:00"
      ≠ calculate_compound_interest ⟨10000, 500, 4, 10, "monthly"⟩ "2024-01-15T10:30:01" := by
  intro h
  have h2 := congrArg CalculatorResponse.calculation_time h
  rw [calc_time, calc_time] at h2
  exact absurd h2 (by decide)

/-- C1 amended: calling twice with identical arguments yields responses
identical in every field except calculation_time (which reproduces the
clock reading of the call). -/
theorem C1_determinism_amended (r : CalculatorRequest) (t1 t2 : String) :
    calculate_compound_interest r t1
      = { calculate_compound_interest r t2 with calculation_time := t1 } := rfl

/-- C8 counterexample: a request whose only out-of-range field is
annual_rate = 0 is rejected: validate_request reports the rate error and
the pydantic field constraints (annual_rate gt 0) fail. -/
theorem C8_counterexample :
    validate_request ⟨1000, 0, 0, 10, "monthly"⟩ = ["利率必须大于0"]
    ∧ modelValid ⟨1000, 0, 0, 10, "monthly"⟩ = false :=
  ⟨by norm_num [validate_request], by norm_num [modelValid]⟩

/-- C8 amended: annual_rate = 0 is outside the accepted domain; every
request with a zero rate receives the rate validation error from
validate_request and fails the model's field constraints. -/
theorem C8_rate_zero_rejected (r : CalculatorRequest) (hr : r.annual_rate = 0) :
    "利率必须大于0" ∈ validate_request r ∧ modelValid r = false := by
  constructor
  · unfold validate_request
    rw [if_pos (le_of_eq hr)]
    simp [List.mem_append]
  · unfold modelValid
    rw [hr]
    simp

/-- Witness for the amended C8 at a concrete request. -/
theorem C8_witness :
    "利率必须大于0" ∈ validate_request ⟨2000, 0, 0, 5, "quarterly"⟩
    ∧ modelValid ⟨2000, 0, 0, 5, "quarterly"⟩ = false :=
  C8_rate_zero_rejected ⟨2000, 0, 0, 5, "quarterly"⟩ rfl

/-- An if-then-else producing a singleton list is empty iff the condition
fails. -/
lemma ifNil (c : Prop) [Decidable c] (s : String) :
    ((if c then [s] else []) = []) ↔ ¬c := by
  split <;> simp [*]

/-- validate_request returns no errors exactly when every numeric field is
inside the engine's caps. -/
lemma validate_eq_nil_iff (r : CalculatorRequest) :
    validate_request r = []
      ↔ (0 < r.principal ∧ r.principal ≤ 10000000 ∧ 0 < r.annual_rate
          ∧ r.annual_rate ≤ 20 ∧ 0 < r.years ∧ r.years ≤ 50
          ∧ 0 ≤ r.monthly_payment ∧ r.monthly_payment ≤ 50000) := by
  simp only [validate_request, List.append_eq_nil, ifNil, not_le, not_lt]
  tauto

/-- C10: validate_request enforces exactly the concrete caps
principal in (0, 10,000,000], annual_rate in (0, 20], years in (1..50
as integers, i.e. 0 &lt; years ≤ 50), monthly_payment in [0, 50,000]: the
error list is empty precisely when all hold. -/
theorem C10_validation_caps (r : CalculatorRequest) :
    validate_request r = []
      ↔ (0 < r.principal ∧ r.principal ≤ 10000000 ∧ 0 < r.annual_rate
          ∧ r.annual_rate ≤ 20 ∧ 0 < r.years ∧ r.years ≤ 50
          ∧ 0 ≤ r.monthly_payment ∧ r.monthly_payment ≤ 50000) :=
  validate_eq_nil_iff r

/-- Witness for C10: an in-range request validates with no errors. -/
theorem C10_witness : validate_request ⟨1000, 500, 4, 10, "monthly"⟩ = [] :=
  (C10_validation_caps ⟨1000, 500, 4, 10, "monthly"⟩).mpr (by norm_num)

/-- C6 counterexample: at principal 1000, monthly payment 100, rate 0, one
year, yearly compounding, the returned breakdown entry has growth_rate 120
although its interest is 0 and its start amount 1000, so the growth rate is
not interest / startAmount * 100 (which would be 0). -/
theorem C6_counterexample :
    (calculate_compound_interest ⟨1000, 100, 0, 1, "yearly"⟩ "t").yearly_breakdown
      = [⟨1, 1000, 1200, 0, 2200, 120⟩]
    ∧ (120 : ℚ) ≠ 0 / 1000 * 100 := by
  constructor
  · simp only [calculate_compound_interest, simulate, simFrom, yearStep, periodStep,
      rate_per_period, periods_per_year, roundRec, roundHalfUp,
      Function.iterate_succ_apply', Function.iterate_zero, id_eq, String.reduceEq,
      reduceIte, List.map_cons, List.map_nil, List.nil_append]
    norm_num
  · norm_num

/-- A yearly record is internally consistent: the end amount decomposes as
start + contributions + interest, and the growth rate is computed from
contributions + interest over the start amount. -/
def GrowthOk (rec : YearRec) : Prop :=
  rec.end_amount = rec.start_amount + rec.contributions + rec.interest
  ∧ rec.growth_rate = (if 0 < rec.start_amount
      then (rec.contributions + rec.interest) / rec.start_amount * 100 else 0)

lemma growthOk_mk (start yc yi cur : ℚ) (year : ℕ) (h : cur - yc - yi = start) :
    GrowthOk ⟨year, start, yc, yi, cur,
      if 0 < start then (cur - start) / start * 100 else 0⟩ := by
  dsimp only [GrowthOk]
  constructor
  · linarith
  · by_cases hs : 0 < start
    · rw [if_pos hs, if_pos hs, show cur - start = yc + yi from by linarith]
    · rw [if_neg hs, if_neg hs]

lemma yearStep_growthOk (freq : String) (pm rp : ℚ) (ppy : ℕ) (year : ℕ) (s : SimState) :
    ∀ rec ∈ (yearStep freq pm rp ppy year s).breakdown,
      rec ∈ s.breakdown ∨ GrowthOk rec := by
  intro rec hrec
  simp only [yearStep, List.mem_append, List.mem_singleton] at hrec
  rcases hrec with h | h
  · exact Or.inl h
  · right
    subst h
    apply growthOk_mk
    have hled := iterate_ledger freq pm rp ppy ⟨s.current, 0, 0, s.total_contributions⟩
    dsimp only at hled
    by_cases hg : (freq = "quarterly" ∨ freq = "yearly") ∧ 0 < pm
    · rw [if_pos hg]
      dsimp only
      linarith
    · rw [if_neg hg]
      linarith

lemma simFrom_growthOk (freq : String) (pm rp : ℚ) (ppy : ℕ) :
    ∀ (n year : ℕ) (s : SimState),
      (∀ rec ∈ s.breakdown, GrowthOk rec) →
      ∀ rec ∈ (simFrom freq pm rp ppy year n s).breakdown, GrowthOk rec := by
  intro n
  induction n with
  | zero => intro year s hs; simpa [simFrom] using hs
  | succ k ih =>
    intro year s hs
    rw [simFrom]
    apply ih
    intro rec hrec
    rcases yearStep_growthOk freq pm rp ppy year s rec hrec with h | h
    · exact hs rec h
    · exact h

/-- C6 amended: every entry of the yearly breakdown satisfies
endAmount = startAmount + contributions + interest, and its growth rate is
(contributions + interest) / startAmount * 100 (0 when the start amount is
not positive): the numerator of the growth rate includes the year's
contributions, not only its interest. -/
theorem C6_growth_amended (r : CalculatorRequest) (rec : YearRec)
    (h : rec ∈ (simulate r).breakdown) :
    rec.end_amount = rec.start_amount + rec.contributions + rec.interest
    ∧ rec.growth_rate = (if 0 < rec.start_amount
        then (rec.contributions + rec.interest) / rec.start_amount * 100 else 0) := by
  have := simFrom_growthOk r.compound_frequency r.monthly_payment
    (rate_per_period r.compound_frequency (r.annual_rate / 100))
    (periods_per_year r.compound_frequency) r.years.toNat 1
    ⟨r.principal, r.principal, []⟩ (by intro rec hrec; simp at hrec) rec h
  exact this

/-- Witness for the amended C6 on a concrete one-year simulation. -/
theorem C6_witness :
    ((⟨1, 100, 0, 0, 100, 0⟩ : YearRec) ∈ (simulate ⟨100, 0, 0, 1, "yearly"⟩).breakdown)
    ∧ ((100 : ℚ) = 100 + 0 + 0
        ∧ (0 : ℚ) = (if (0 : ℚ) < 100 then (0 + 0) / 100 * 100 else 0)) := by
  have hmem : (⟨1, 100, 0, 0, 100, 0⟩ : YearRec)
      ∈ (simulate ⟨100, 0, 0, 1, "yearly"⟩).breakdown := by
    simp only [simulate, simFrom, yearStep, periodStep, rate_per_period, periods_per_year,
      Function.iterate_succ_apply', Function.iterate_zero, id_eq, String.reduceEq, reduceIte,
      List.nil_append]
    norm_num
  exact ⟨hmem, C6_growth_amended ⟨100, 0, 0, 1, "yearly"⟩ ⟨1, 100, 0, 0, 100, 0⟩ hmem⟩

/-! Contribution timing (C2). -/

lemma curStep_nm (freq : String) (pm rp : ℚ) (h : ¬(freq = "monthly" ∧ 0 < pm)) (a : ℚ) :
    curStep freq pm rp a = a * (1 + rp) := by
  simp only [curStep, if_neg h]
  ring

lemma iterate_curStep_nm (freq : String) (pm rp : ℚ) (h : ¬(freq = "monthly" ∧ 0 < pm)) :
    ∀ (n : ℕ) (a : ℚ), (curStep freq pm rp)^[n] a = a * (1 + rp) ^ n := by
  intro n
  induction n with
  | zero => intro a; simp
  | succ k ih =>
    intro a
    rw [Function.iterate_succ_apply', ih, curStep_nm freq pm rp h, pow_succ]
    ring

/-- C2: with a positive monthly payment, a monthly-compounding period first
adds the payment and then accrues interest on the increased balance (so the
period result is (current + payment) * (1 + rate_per_period)); under
quarterly or yearly compounding the whole year multiplies the balance by
(1 + rate_per_period) ^ periods_per_year and then adds the annual
contribution payment * 12 once, additively (it earns no interest that
year), increasing total_contributions by exactly payment * 12. -/
theorem C2_contribution_timing (pm rp : ℚ) (hpm : 0 < pm) (c yc yi tc : ℚ)
    (freq : String) (hf : freq = "quarterly" ∨ freq = "yearly")
    (year : ℕ) (st : SimState) :
    (periodStep "monthly" pm rp ⟨c, yc, yi, tc⟩).cur = (c + pm) * (1 + rp)
    ∧ (yearStep freq pm rp (periods_per_year freq) year st).current
        = st.current * (1 + rp) ^ (periods_per_year freq) + pm * 12
    ∧ (yearStep freq pm rp (periods_per_year freq) year st).total_contributions
        = st.total_contributions + pm * 12 := by
  have hnm : ¬(freq = "monthly" ∧ 0 < pm) := by
    rcases hf with rfl | rfl <;> simp
  refine ⟨?_, ?_, ?_⟩
  · rw [periodStep_cur]
    simp only [curStep, true_and, String.reduceEq]
    rw [if_pos hpm]
    ring
  · rw [yearStep_current, yearCur, iterate_curStep_nm freq pm rp hnm,
      yearEndInc, if_pos (And.intro hf hpm)]
  · rw [yearStep_tc, yearContrib, yearEndInc, if_pos (And.intro hf hpm),
      contribInc, if_neg hnm]
    ring

/-- Witness for C2 at concrete values (quarterly year from balance 100,
payment 1, period rate 1/20). -/
theorem C2_witness :
    (periodStep "monthly" 1 (1/20) ⟨100, 0, 0, 100⟩).cur = (100 + 1) * (1 + 1/20)
    ∧ (yearStep "quarterly" 1 (1/20) (periods_per_year "quarterly") 1
        ⟨100, 100, []⟩).current
        = 100 * (1 + 1/20) ^ (periods_per_year "quarterly") + 1 * 12
    ∧ (yearStep "quarterly" 1 (1/20) (periods_per_year "quarterly") 1
        ⟨100, 100, []⟩).total_contributions
        = 100 + 1 * 12 :=
  C2_contribution_timing 1 (1/20) (by norm_num) 100 0 0 100 "quarterly"
    (Or.inl rfl) 1 ⟨100, 100, []⟩

/-! Engine-level validation (C7). -/

lemma periodStep_congr (freq : String) (pm rp : ℚ)
    (hm : ¬(freq = "monthly" ∧ 0 < pm))
    (freq2 : String) (pm2 : ℚ) (hm2 : ¬(freq2 = "monthly" ∧ 0 < pm2)) :
    periodStep freq pm rp = periodStep freq2 pm2 rp :=
  funext fun s => by simp [periodStep, hm, hm2]

lemma yearStep_congr (freq : String) (pm rp : ℚ) (ppy : ℕ)
    (hm : ¬(freq = "monthly" ∧ 0 < pm))
    (hq : ¬((freq = "quarterly" ∨ freq = "yearly") ∧ 0 < pm))
    (freq2 : String) (pm2 : ℚ)
    (hm2 : ¬(freq2 = "monthly" ∧ 0 < pm2))
    (hq2 : ¬((freq2 = "quarterly" ∨ freq2 = "yearly") ∧ 0 < pm2)) :
    yearStep freq pm rp ppy = yearStep freq2 pm2 rp ppy := by
  funext year s
  simp only [yearStep, periodStep_congr freq pm rp hm freq2 pm2 hm2,
    if_neg hq, if_neg hq2]

lemma simFrom_congr (freq : String) (pm rp : ℚ) (ppy : ℕ)
    (freq2 : String) (pm2 : ℚ)
    (h : yearStep freq pm rp ppy = yearStep freq2 pm2 rp ppy) :
    ∀ (n year : ℕ) (s : SimState),
      simFrom freq pm rp ppy year n s = simFrom freq2 pm2 rp ppy year n s := by
  intro n
  induction n with
  | zero => intro year s; rfl
  | succ k ih =>
    intro year s
    rw [simFrom, simFrom, h, ih]

/-- C7 amended: calculate_compound_interest itself performs no input
validation and never fails. An unrecognized frequency string is computed
with the yearly parameters (one period per year at the full annual rate)
and, because the contribution guards match only the three known strings,
with all contributions dropped — exactly as if the payment were 0 and the
frequency yearly. Rejection of out-of-domain inputs happens only in the
validation layer: a request passing the pydantic field constraints, or
validate_request, satisfies the preconditions. -/
theorem C7_no_engine_validation :
    (∀ (r : CalculatorRequest) (t : String),
        r.compound_frequency ≠ "monthly" → r.compound_frequency ≠ "quarterly" →
        r.compound_frequency ≠ "yearly" →
        calculate_compound_interest r t
          = calculate_compound_interest
              { r with monthly_payment := 0, compound_frequency := "yearly" } t)
    ∧ (∀ r : CalculatorRequest, modelValid r = true →
        0 < r.principal ∧ 0 < r.annual_rate ∧ 0 < r.years
        ∧ (r.compound_frequency = "monthly" ∨ r.compound_frequency = "quarterly"
            ∨ r.compound_frequency = "yearly"))
    ∧ (∀ r : CalculatorRequest, validate_request r = [] →
        0 < r.principal ∧ 0 < r.annual_rate ∧ 0 < r.years) := by
  refine ⟨?_, ?_, ?_⟩
  · intro r t h1 h2 h3
    have hm : ¬(r.compound_frequency = "monthly" ∧ 0 < r.monthly_payment) := by
      intro h; exact h1 h.1
    have hq : ¬((r.compound_frequency = "quarterly" ∨ r.compound_frequency = "yearly")
        ∧ 0 < r.monthly_payment) := by
      rintro ⟨h | h, _⟩
      · exact h2 h
      · exact h3 h
    have hm2 : ¬(("yearly" : String) = "monthly" ∧ 0 < (0 : ℚ)) := by simp
    have hq2 : ¬((("yearly" : String) = "quarterly" ∨ ("yearly" : String) = "yearly")
        ∧ 0 < (0 : ℚ)) := by simp
    have hppy : periods_per_year r.compound_frequency = periods_per_year "yearly" := by
      simp [periods_per_year, h1, h2]
    have hrp : rate_per_period r.compound_frequency (r.annual_rate / 100)
        = rate_per_period "yearly" (r.annual_rate / 100) := by
      simp [rate_per_period, h1, h2]
    have hsim : simulate r
        = simulate { r with monthly_payment := 0, compound_frequency := "yearly" } := by
      unfold simulate
      dsimp only
      rw [hppy, hrp]
      exact simFrom_congr _ _ _ _ _ _
        (yearStep_congr _ _ _ _ hm hq _ _ hm2 hq2) _ _ _
    unfold calculate_compound_interest
    rw [hsim]
  · intro r hv
    simp only [modelValid, Bool.and_eq_true, decide_eq_true_eq,
      Bool.or_eq_true] at hv
    obtain ⟨⟨⟨⟨⟨⟨⟨⟨ha, hb⟩, hc⟩, hd⟩, he⟩, hf2⟩, hg⟩, hh⟩, hi⟩ := hv
    exact ⟨ha, he, hg, by tauto⟩
  · intro r hv
    have h := (validate_eq_nil_iff r).mp hv
    exact ⟨h.1, h.2.2.1, h.2.2.2.2.1⟩

/-- Witness for the amended C7 at concrete requests. -/
theorem C7_witness :
    (calculate_compound_interest ⟨50, 7, 5, 1, "weekly"⟩ "t"
      = calculate_compound_interest ⟨50, 0, 5, 1, "yearly"⟩ "t")
    ∧ (0 < (50 : ℚ) ∧ 0 < (4 : ℚ) ∧ 0 < (10 : ℤ)
        ∧ (("monthly" : String) = "monthly" ∨ ("monthly" : String) = "quarterly"
            ∨ ("monthly" : String) = "yearly"))
    ∧ (0 < (1000 : ℚ) ∧ 0 < (4 : ℚ) ∧ 0 < (10 : ℤ)) :=
  ⟨C7_no_engine_validation.1 ⟨50, 7, 5, 1, "weekly"⟩ "t"
      (by decide) (by decide) (by decide),
   C7_no_engine_validation.2.1 ⟨50, 0, 4, 10, "monthly"⟩ (by norm_num [modelValid]),
   C7_no_engine_validation.2.2 ⟨1000, 0, 4, 10, "monthly"⟩
      (by norm_num [validate_request])⟩

/-- C7 counterexample: an out-of-domain request (negative principal and an
unrecognized frequency) is not rejected: calculate_compound_interest
returns an ordinary numeric result, -110.25 (the negative principal
compounded at 5% for two years with yearly parameters). -/
theorem C7_counterexample :
    (calculate_compound_interest ⟨-100, 0, 5, 2, "weekly"⟩ "t").final_amount
      = -441/4 := by
  simp only [calculate_compound_interest, simulate, simFrom, yearStep, periodStep,
    rate_per_period, periods_per_year, Function.iterate_succ_apply',
    Function.iterate_zero, id_eq, String.reduceEq, reduceIte, List.nil_append,
    roundHalfUp]
  norm_num

/-! Monotonicity in the compounding frequency (C9). -/

lemma one_add_le_pow_four (r : ℚ) (hr : 0 ≤ r) : 1 + r ≤ (1 + r/4) ^ 4 := by
  have h := one_add_mul_le_pow (show (-2 : ℚ) ≤ r/4 by linarith) 4
  push_cast at h
  linarith

lemma pow_four_le_pow_twelve (r : ℚ) (hr : 0 ≤ r) :
    (1 + r/4) ^ 4 ≤ (1 + r/12) ^ 12 := by
  have h3 : 1 + r/4 ≤ (1 + r/12) ^ 3 := by
    have h := one_add_mul_le_pow (show (-2 : ℚ) ≤ r/12 by linarith) 3
    push_cast at h
    linarith
  calc (1 + r/4) ^ 4 ≤ ((1 + r/12) ^ 3) ^ 4 :=
        pow_le_pow_left (by linarith) h3 4
    _ = (1 + r/12) ^ 12 := by rw [← pow_mul]

/-- Lower bound for a monthly-compounded year: contributions during the
year only help relative to collecting interest on the start balance and
receiving the payments without interest. -/
lemma monthly_iter_ge (pm rm : ℚ) (hpm : 0 < pm) (hrm : 0 ≤ rm) :
    ∀ (k : ℕ) (a : ℚ),
      a * (1 + rm) ^ k + k * pm ≤ (curStep "monthly" pm rm)^[k] a := by
  intro k
  induction k with
  | zero => intro a; simp
  | succ j ih =>
    intro a
    rw [Function.iterate_succ_apply']
    have hz := ih a
    have hstep : (curStep "monthly" pm rm) ((curStep "monthly" pm rm)^[j] a)
        = ((curStep "monthly" pm rm)^[j] a + pm) * (1 + rm) := by
      simp only [curStep, true_and, String.reduceEq]
      rw [if_pos hpm]
      ring
    rw [hstep]
    have h1 : (a * (1 + rm) ^ j + j * pm + pm) * (1 + rm)
        ≤ ((curStep "monthly" pm rm)^[j] a + pm) * (1 + rm) :=
      mul_le_mul_of_nonneg_right (by linarith) (by linarith)
    have h2 : (a * (1 + rm) ^ j + j * pm + pm) * (1 + rm)
        = a * (1 + rm) ^ (j + 1) + (j + 1) * pm + (j + 1) * pm * rm := by
      rw [pow_succ]
      ring
    have h3 : 0 ≤ ((j : ℚ) + 1) * pm * rm := by positivity
    push_cast
    push_cast at h1 h2
    linarith

lemma yearCur_yearly (pm ra a : ℚ) (hpm : 0 < pm) :
    yearCur "yearly" pm ra 1 a = a * (1 + ra) + pm * 12 := by
  rw [yearCur, iterate_curStep_nm _ _ _ (by simp), yearEndInc,
    if_pos (And.intro (Or.inr rfl) hpm), pow_one]

lemma yearCur_quarterly (pm rq a : ℚ) (hpm : 0 < pm) :
    yearCur "quarterly" pm rq 4 a = a * (1 + rq) ^ 4 + pm * 12 := by
  rw [yearCur, iterate_curStep_nm _ _ _ (by simp), yearEndInc,
    if_pos (And.intro (Or.inl rfl) hpm)]

lemma yearCur_monthly_ge (pm rm a : ℚ) (hpm : 0 < pm) (hrm : 0 ≤ rm) :
    a * (1 + rm) ^ 12 + pm * 12 ≤ yearCur "monthly" pm rm 12 a := by
  have h := monthly_iter_ge pm rm hpm hrm 12 a
  rw [yearCur, yearEndInc, if_neg (by simp)]
  push_cast at h
  linarith

/-- The yearly / quarterly / monthly year maps preserve the ordering chain
(and non-negativity) of the running balances. -/
lemma freq_chain (p pm ra : ℚ) (hp : 0 ≤ p) (hpm : 0 < pm) (hra : 0 ≤ ra) :
    ∀ n : ℕ,
      0 ≤ (yearCur "yearly" pm ra 1)^[n] p
      ∧ (yearCur "yearly" pm ra 1)^[n] p ≤ (yearCur "quarterly" pm (ra/4) 4)^[n] p
      ∧ (yearCur "quarterly" pm (ra/4) 4)^[n] p ≤ (yearCur "monthly" pm (ra/12) 12)^[n] p := by
  intro n
  induction n with
  | zero => exact ⟨hp, le_refl p, le_refl p⟩
  | succ k ih =>
    obtain ⟨h0, h1, h2⟩ := ih
    rw [Function.iterate_succ_apply', Function.iterate_succ_apply',
      Function.iterate_succ_apply']
    set a := (yearCur "yearly" pm ra 1)^[k] p with ha
    set b := (yearCur "quarterly" pm (ra/4) 4)^[k] p with hb
    set c := (yearCur "monthly" pm (ra/12) 12)^[k] p with hc
    have hb0 : 0 ≤ b := le_trans h0 h1
    have hc0 : 0 ≤ c := le_trans hb0 h2
    have hy := yearCur_yearly pm ra a hpm
    have hq := yearCur_quarterly pm (ra/4) b hpm
    have hq2 := yearCur_quarterly pm (ra/4) c hpm
    have hm := yearCur_monthly_ge pm (ra/12) c hpm (by linarith)
    refine ⟨?_, ?_, ?_⟩
    · rw [hy]
      have : 0 ≤ a * (1 + ra) := mul_nonneg h0 (by linarith)
      linarith
    · rw [hy, hq]
      have s1 : a * (1 + ra) ≤ b * (1 + ra) :=
        mul_le_mul_of_nonneg_right h1 (by linarith)
      have s2 : b * (1 + ra) ≤ b * (1 + ra/4) ^ 4 :=
        mul_le_mul_of_nonneg_left (one_add_le_pow_four ra hra) hb0
      linarith
    · rw [hq]
      have s1 : b * (1 + ra/4) ^ 4 ≤ c * (1 + ra/4) ^ 4 :=
        mul_le_mul_of_nonneg_right h2 (by positivity)
      have s2 : c * (1 + ra/4) ^ 4 ≤ c * (1 + ra/12) ^ 12 :=
        mul_le_mul_of_nonneg_left (pow_four_le_pow_twelve ra hra) hc0
      linarith

lemma simulate_current_yearly (p pm rate : ℚ) (yrs : ℤ) :
    (simulate ⟨p, pm, rate, yrs, "yearly"⟩).current
      = (yearCur "yearly" pm (rate/100) 1)^[yrs.toNat] p := by
  unfold simulate
  dsimp only
  rw [show periods_per_year "yearly" = 1 from by simp [periods_per_year],
    show rate_per_period "yearly" (rate/100) = rate/100 from by
      simp [rate_per_period],
    simFrom_current]

lemma simulate_current_quarterly (p pm rate : ℚ) (yrs : ℤ) :
    (simulate ⟨p, pm, rate, yrs, "quarterly"⟩).current
      = (yearCur "quarterly" pm (rate/100/4) 4)^[yrs.toNat] p := by
  unfold simulate
  dsimp only
  rw [show periods_per_year "quarterly" = 4 from by simp [periods_per_year],
    show rate_per_period "quarterly" (rate/100) = rate/100/4 from by
      simp [rate_per_period],
    simFrom_current]

lemma simulate_current_monthly (p pm rate : ℚ) (yrs : ℤ) :
    (simulate ⟨p, pm, rate, yrs, "monthly"⟩).current
      = (yearCur "monthly" pm (rate/100/12) 12)^[yrs.toNat] p := by
  unfold simulate
  dsimp only
  rw [show periods_per_year "monthly" = 12 from by simp [periods_per_year],
    show rate_per_period "monthly" (rate/100) = rate/100/12 from by
      simp [rate_per_period],
    simFrom_current]

/-- C9: for fixed positive principal, rate in (0, 20], years at least 1 and
positive monthly payment, the returned final amount is monotone in the
compounding frequency: yearly at most quarterly at most monthly. -/
theorem C9_frequency_monotonicity (p pm rate : ℚ) (yrs : ℤ) (t : String)
    (hp : 0 < p) (hpm : 0 < pm) (hr : 0 < rate) (hr20 : rate ≤ 20) (hy : 1 ≤ yrs) :
    (calculate_compound_interest ⟨p, pm, rate, yrs, "yearly"⟩ t).final_amount
      ≤ (calculate_compound_interest ⟨p, pm, rate, yrs, "quarterly"⟩ t).final_amount
    ∧ (calculate_compound_interest ⟨p, pm, rate, yrs, "quarterly"⟩ t).final_amount
      ≤ (calculate_compound_interest ⟨p, pm, rate, yrs, "monthly"⟩ t).final_amount := by
  have hra : (0 : ℚ) ≤ rate/100 := by linarith
  have hchain := freq_chain p pm (rate/100) (le_of_lt hp) hpm hra yrs.toNat
  have e1 := simulate_current_yearly p pm rate yrs
  have e2 := simulate_current_quarterly p pm rate yrs
  have e3 := simulate_current_monthly p pm rate yrs
  constructor
  · rw [calc_final, calc_final, e1, e2]
    exact roundHalfUp_mono hchain.2.1
  · rw [calc_final, calc_final, e2, e3]
    exact roundHalfUp_mono hchain.2.2

/-- Witness for C9 at principal 1000, payment 100, rate 5, one year. -/
theorem C9_witness :
    (calculate_compound_interest ⟨1000, 100, 5, 1, "yearly"⟩ "t").final_amount
      ≤ (calculate_compound_interest ⟨1000, 100, 5, 1, "quarterly"⟩ "t").final_amount
    ∧ (calculate_compound_interest ⟨1000, 100, 5, 1, "quarterly"⟩ "t").final_amount
      ≤ (calculate_compound_interest ⟨1000, 100, 5, 1, "monthly"⟩ "t").final_amount :=
  C9_frequency_monotonicity 1000 100 5 1 "t" (by norm_num) (by norm_num)
    (by norm_num) (by norm_num) (by norm_num)

end Zinses
